import Mathlib

/-!
# Verification of the content-protection orchestration core

Shallow embedding of `src/index.js` (class `ContentProtectionAPI`): the
session store, the security-status aggregator, the breach-response policy
and the session lifecycle operations.  The four detector modules and the
helper utilities (`generateUniqueId`, `generateSecurityToken`,
`notifySecurityEvent`) are external collaborators: their results and
success/failure are passed in as explicit inputs.  Timestamps
(`new Date().toISOString()`) are threaded as an explicit `now : String`
input.  Promise rejection (a JS `async` function throwing) is modelled by
an explicit early return that leaves the store untouched and marks the
run as not completed.
-/

namespace ContentProtection

/-- Session status values stored in `session.status`: `'active'`,
`'terminated'`, `'closed'`. -/
inductive SessionStatus where
  | active
  | terminated
  | closed
deriving DecidableEq, Repr

/-- A session record as stored in `this.sessions`.  Fields that JS adds
dynamically (`terminatedReason`, `terminatedAt`, `closedAt`) are `Option`s. -/
structure Session where
  info : String
  startTime : String
  status : SessionStatus
  terminatedReason : Option String
  terminatedAt : Option String
  closedAt : Option String
deriving DecidableEq, Repr

/-- The session store `this.sessions : Map`, as an association list. -/
abbrev Store := List (String × Session)

/-- `Map.get` / the lookup part of `Map.has`. -/
def lookupSession : Store → String → Option Session
  | [], _ => none
  | (k2, v) :: rest, k => if k2 = k then some v else lookupSession rest k

/-- `this.sessions.has(sessionId)`. -/
def hasSession (m : Store) (k : String) : Bool :=
  (lookupSession m k).isSome

/-- `this.sessions.set(sessionId, session)`: replace the entry if the key
is present, append it otherwise (JS `Map.set` semantics). -/
def setEntry : Store → String → Session → Store
  | [], k, v => [(k, v)]
  | (k2, v2) :: rest, k, v =>
      if k2 = k then (k, v) :: rest else (k2, v2) :: setEntry rest k v

/-- Engine configuration (`this.config`), with defaults already applied by
the constructor. -/
structure Config where
  apiKey : String
  serviceName : String
  sensitivityLevel : String
  blockingStrategy : String
  notificationEndpoint : Option String
  loggingLevel : String
deriving DecidableEq, Repr

/-- Result of `vpnDetection.checkStatus` — the core reads `.detected`. -/
structure VpnStatus where
  detected : Bool
  details : String
deriving DecidableEq, Repr

/-- Result of `networkAnalysis.checkStatus` — the core reads `.suspicious`. -/
structure NetworkStatus where
  suspicious : Bool
  details : String
deriving DecidableEq, Repr

/-- Result of `anomalyDetection.checkStatus` — the core reads `.anomalies`. -/
structure AnomalyStatus where
  anomalies : List String
deriving DecidableEq, Repr

/-- Result of `contentFingerprinting.checkStatus` — the core reads `.valid`. -/
structure FingerprintStatus where
  valid : Bool
  details : String
deriving DecidableEq, Repr

/-- The `type` tag of a threat entry. -/
inductive ThreatType where
  | vpn
  | network
  | anomaly
  | fingerprint
deriving DecidableEq, Repr

/-- The `details` payload of a threat entry: the originating detector
result. -/
inductive ThreatDetails where
  | vpn (s : VpnStatus)
  | network (s : NetworkStatus)
  | anomaly (s : AnomalyStatus)
  | fingerprint (s : FingerprintStatus)
deriving DecidableEq, Repr

/-- One entry pushed onto `threats` in `checkSecurityStatus`. -/
structure Threat where
  type : ThreatType
  details : ThreatDetails
deriving DecidableEq, Repr

/-- The threat-collection block of `checkSecurityStatus` (lines 80–84):
four independent pushes, in source order vpn, network, anomaly,
fingerprint. -/
def collectThreats (vpnStatus : VpnStatus) (networkStatus : NetworkStatus)
    (anomalyStatus : AnomalyStatus) (fingerprintStatus : FingerprintStatus) :
    List Threat :=
  (if vpnStatus.detected then [⟨.vpn, .vpn vpnStatus⟩] else []) ++
  (if networkStatus.suspicious then [⟨.network, .network networkStatus⟩] else []) ++
  (if 0 < anomalyStatus.anomalies.length then [⟨.anomaly, .anomaly anomalyStatus⟩] else []) ++
  (if !fingerprintStatus.valid then [⟨.fingerprint, .fingerprint fingerprintStatus⟩] else [])

/-- The `securityStatus` object built by `checkSecurityStatus`. -/
structure SecurityStatus where
  secure : Bool
  timestamp : String
  sessionId : String
  threats : List Threat
deriving DecidableEq, Repr

/-- The value returned by `checkSecurityStatus`: either the degenerate
`{error, secure, timestamp}` object for an unknown session (which has no
`threats` field) or a full `SecurityStatus`. -/
inductive CheckResult where
  | invalidSession (error : String) (secure : Bool) (timestamp : String)
  | status (s : SecurityStatus)
deriving DecidableEq, Repr

/-- The record built by `logSecurityEvent`. -/
structure LogRecord where
  timestamp : String
  sessionId : String
  eventType : String
  data : List Threat
deriving DecidableEq, Repr

/-- `logSecurityEvent`: always builds the record; the boolean says whether
the level filter lets it be emitted (lines 196–199). -/
def logSecurityEvent (config : Config) (sessionId eventType : String)
    (data : List Threat) (now : String) : LogRecord × Bool :=
  ({ timestamp := now, sessionId := sessionId, eventType := eventType, data := data },
   config.loggingLevel == "debug" ||
     (config.loggingLevel == "info" && eventType != "routine") ||
     (config.loggingLevel == "warning" && eventType == "breach"))

/-- The webhook payload sent by `notifySecurityEvent` from
`handleSecurityBreach`. -/
structure NotifyPayload where
  sessionId : String
  timestamp : String
  threats : List Threat
  action : String
deriving DecidableEq, Repr

/-- The value returned by the three strategy actions. -/
inductive ActionResult where
  | terminate (reason : String) (sessionId : String) (timestamp : String)
  | degrade (sessionId : String) (timestamp : String)
  | warning (sessionId : String) (threats : List Threat) (timestamp : String)
deriving DecidableEq, Repr

/-- `terminateStream(sessionId, reason)`: mutates the session record only
when the id is in the store, and always returns the full `terminate`
result object. -/
def terminateStream (sessions : Store) (sessionId reason now : String) :
    Store × ActionResult :=
  (match lookupSession sessions sessionId with
   | some session =>
       setEntry sessions sessionId
         { session with
             status := .terminated
             terminatedReason := some reason
             terminatedAt := some now }
   | none => sessions,
   .terminate reason sessionId now)

/-- `degradeStreamQuality(sessionId)`: result object only, no store access. -/
def degradeStreamQuality (sessionId now : String) : ActionResult :=
  .degrade sessionId now

/-- `issueWarning(sessionId, threats)`: result object only, no store access. -/
def issueWarning (sessionId : String) (threats : List Threat) (now : String) :
    ActionResult :=
  .warning sessionId threats now

/-- The observable outcome of one `handleSecurityBreach` run.
`completed = false` means the awaited notification rejected and the
`async` function rejected there, before the strategy dispatch. -/
structure BreachOutcome where
  sessions : Store
  logRecord : LogRecord
  logEmitted : Bool
  notifySent : Option NotifyPayload
  completed : Bool
  action : Option ActionResult
deriving DecidableEq, Repr

/-- `handleSecurityBreach(sessionId, threats)` (lines 101–126): log, then
(if configured) await the notification — a rejection aborts the run — then
dispatch on `blockingStrategy` with `terminateStream` as the `default`
case.  `notifyOk` is the external notification delivery outcome. -/
def handleSecurityBreach (config : Config) (sessions : Store)
    (sessionId : String) (threats : List Threat) (notifyOk : Bool)
    (now : String) : BreachOutcome :=
  let logged := logSecurityEvent config sessionId ("breach") threats now
  let notifySent : Option NotifyPayload :=
    if config.notificationEndpoint.isSome then
      some { sessionId := sessionId, timestamp := now, threats := threats,
             action := config.blockingStrategy }
    else none
  if config.notificationEndpoint.isSome && !notifyOk then
    { sessions := sessions, logRecord := logged.1, logEmitted := logged.2,
      notifySent := notifySent, completed := false, action := none }
  else if config.blockingStrategy = "immediate" then
    let r := terminateStream sessions sessionId ("Security violation detected") now
    { sessions := r.1, logRecord := logged.1, logEmitted := logged.2,
      notifySent := notifySent, completed := true, action := some r.2 }
  else if config.blockingStrategy = "degraded" then
    { sessions := sessions, logRecord := logged.1, logEmitted := logged.2,
      notifySent := notifySent, completed := true,
      action := some (degradeStreamQuality sessionId now) }
  else if config.blockingStrategy = "warning" then
    { sessions := sessions, logRecord := logged.1, logEmitted := logged.2,
      notifySent := notifySent, completed := true,
      action := some (issueWarning sessionId threats now) }
  else
    let r := terminateStream sessions sessionId ("Security violation detected") now
    { sessions := r.1, logRecord := logged.1, logEmitted := logged.2,
      notifySent := notifySent, completed := true, action := some r.2 }

/-- The observable outcome of one `checkSecurityStatus` call: the returned
value, the store afterwards, and the breach-handling run when one was
started (`none` means `handleSecurityBreach` was never invoked, hence no
breach log, notification or strategy action). -/
structure CheckOutcome where
  result : CheckResult
  sessions : Store
  breach : Option BreachOutcome
deriving DecidableEq, Repr

/-- `checkSecurityStatus(sessionId)` (lines 61–99): unknown session ⇒
degenerate error value and no side effect; otherwise collect threats from
the four detector results, build the status with
`secure = (threats.length === 0)`, and invoke `handleSecurityBreach` iff
not secure.  The detector results and the notification outcome are
external inputs. -/
def checkSecurityStatus (config : Config) (sessions : Store)
    (sessionId : String) (vpnStatus : VpnStatus)
    (networkStatus : NetworkStatus) (anomalyStatus : AnomalyStatus)
    (fingerprintStatus : FingerprintStatus) (notifyOk : Bool)
    (now : String) : CheckOutcome :=
  if !hasSession sessions sessionId then
    { result := .invalidSession ("Invalid session") false now,
      sessions := sessions, breach := none }
  else
    let threats := collectThreats vpnStatus networkStatus anomalyStatus fingerprintStatus
    let securityStatus : SecurityStatus :=
      { secure := threats.length == 0, timestamp := now,
        sessionId := sessionId, threats := threats }
    if !securityStatus.secure then
      let b := handleSecurityBreach config sessions sessionId threats notifyOk now
      { result := .status securityStatus, sessions := b.sessions, breach := some b }
    else
      { result := .status securityStatus, sessions := sessions, breach := none }

/-- One detector module as seen by `cleanup`: `hasCleanup` is
`typeof module.cleanup === 'function'`. -/
structure ModuleCap where
  name : String
  hasCleanup : Bool
deriving DecidableEq, Repr

/-- The observable outcome of one `cleanup` call: the returned boolean,
the store afterwards, and the names of the modules whose `cleanup` was
invoked. -/
structure CleanupOutcome where
  returned : Bool
  sessions : Store
  cleaned : List String
deriving DecidableEq, Repr

/-- `cleanup(sessionId)` (lines 166–185): unknown session ⇒ `false`,
no effect; otherwise set `status = 'closed'`, stamp `closedAt`, call
`cleanup` on every module that has one, and return `true`. -/
def cleanup (sessions : Store) (sessionId : String) (mods : List ModuleCap)
    (now : String) : CleanupOutcome :=
  match lookupSession sessions sessionId with
  | none => { returned := false, sessions := sessions, cleaned := [] }
  | some session =>
      { returned := true,
        sessions := setEntry sessions sessionId
          { session with status := .closed, closedAt := some now },
        cleaned := (mods.filter (fun m => m.hasCleanup)).map (fun m => m.name) }

/-- The value returned by a successful `initialize`. -/
structure InitResult where
  sessionId : String
  securityToken : String
  fingerprintData : String
deriving DecidableEq, Repr

/-- `initialize(sessionInfo)` (lines 34–59): `Promise.all` over the four
module initializations — if any of them fails the whole call rejects
before `sessions.set`, so the store is untouched; otherwise the session
record `{info, startTime, status: 'active'}` is inserted and the result
object returned.  The generated id, token and fingerprint data come from
external helpers and are inputs here. -/
def initializeSession (sessions : Store) (sessionId sessionInfo : String)
    (vpnInitOk networkInitOk anomalyInitOk fingerprintInitOk : Bool)
    (securityToken fingerprintData now : String) :
    Store × Except String InitResult :=
  if vpnInitOk && networkInitOk && anomalyInitOk && fingerprintInitOk then
    (setEntry sessions sessionId
       { info := sessionInfo, startTime := now, status := .active,
         terminatedReason := none, terminatedAt := none, closedAt := none },
     .ok { sessionId := sessionId, securityToken := securityToken,
           fingerprintData := fingerprintData })
  else
    (sessions, .error ("module initialization failed"))

/-! ## Concrete fixtures used by witnesses -/

/-- A configuration with the constructor defaults
(`blockingStrategy: 'immediate'`, `loggingLevel: 'info'`, no endpoint). -/
def demoConfig : Config :=
  { apiKey := "k", serviceName := "svc", sensitivityLevel := "medium",
    blockingStrategy := "immediate", notificationEndpoint := none,
    loggingLevel := "info" }

/-- `demoConfig` with a notification endpoint configured. -/
def demoConfigN : Config :=
  { demoConfig with notificationEndpoint := some ("e") }

/-- A session in the `'closed'` terminal state. -/
def closedSession : Session :=
  { info := "i", startTime := "t0", status := .closed,
    terminatedReason := none, terminatedAt := none, closedAt := some ("t1") }

/-- A session in the `'terminated'` terminal state. -/
def terminatedSession : Session :=
  { info := "i", startTime := "t0", status := .terminated,
    terminatedReason := some ("r0"), terminatedAt := some ("t1"), closedAt := none }

/-- A session in the `'active'` state. -/
def activeSession : Session :=
  { info := "i", startTime := "t0", status := .active,
    terminatedReason := none, terminatedAt := none, closedAt := none }

def cleanVpn : VpnStatus := { detected := false, details := "d" }

def cleanNetwork : NetworkStatus := { suspicious := false, details := "d" }

def cleanAnomaly : AnomalyStatus := { anomalies := [] }

def cleanFingerprint : FingerprintStatus := { valid := true, details := "d" }

/-- A module list on which only some modules expose `cleanup`. -/
def demoMods : List ModuleCap :=
  [⟨"vpnDetection", true⟩, ⟨"networkAnalysis", false⟩,
   ⟨"anomalyDetection", true⟩, ⟨"contentFingerprinting", true⟩]

/-! ## Store lemmas -/

theorem lookupSession_setEntry_self (m : Store) (k : String) (v : Session) :
    lookupSession (setEntry m k v) k = some v := by
  induction m with
  | nil => simp [setEntry, lookupSession]
  | cons p rest ih =>
      obtain ⟨k2, v2⟩ := p
      by_cases h : k2 = k
      · simp [setEntry, lookupSession, h]
      · simp [setEntry, lookupSession, h, ih]

theorem lookupSession_setEntry_ne (m : Store) (k k2 : String) (v : Session)
    (h : k2 ≠ k) :
    lookupSession (setEntry m k v) k2 = lookupSession m k2 := by
  have h2 : ¬ k = k2 := fun hk => h hk.symm
  induction m with
  | nil => simp [setEntry, lookupSession, h2]
  | cons p rest ih =>
      obtain ⟨k3, v3⟩ := p
      by_cases h3 : k3 = k
      · subst h3
        simp [setEntry, lookupSession, h2]
      · simp [setEntry, lookupSession, h3, ih]

/-! ## Behaviour lemmas on `checkSecurityStatus` -/

/-- `collectThreats` phrased the way the spec states the rule table:
one entry per detector iff its condition fires, in the fixed order
vpn, network, anomaly, fingerprint. -/
theorem collectThreats_eq_spec (v : VpnStatus) (n : NetworkStatus)
    (a : AnomalyStatus) (f : FingerprintStatus) :
    collectThreats v n a f =
      (if v.detected = true then [⟨.vpn, .vpn v⟩] else []) ++
      (if n.suspicious = true then [⟨.network, .network n⟩] else []) ++
      (if a.anomalies ≠ [] then [⟨.anomaly, .anomaly a⟩] else []) ++
      (if f.valid = false then [⟨.fingerprint, .fingerprint f⟩] else []) := by
  unfold collectThreats
  cases hv : v.detected <;> cases hn : n.suspicious <;>
    cases hf : f.valid <;> cases ha : a.anomalies <;> simp [hv, hn, hf, ha]

/-- On a known session, the value returned by `checkSecurityStatus` is the
full `SecurityStatus` built from the collected threats, independent of the
breach-handling branch. -/
theorem checkSecurityStatus_result_known (config : Config) (sessions : Store)
    (sessionId : String) (v : VpnStatus) (n : NetworkStatus)
    (a : AnomalyStatus) (f : FingerprintStatus) (notifyOk : Bool)
    (now : String) (h : hasSession sessions sessionId = true) :
    (checkSecurityStatus config sessions sessionId v n a f notifyOk now).result =
      .status { secure := (collectThreats v n a f).length == 0,
                timestamp := now, sessionId := sessionId,
                threats := collectThreats v n a f } := by
  simp only [checkSecurityStatus, h, Bool.not_true, Bool.false_eq_true,
    if_false]
  split <;> rfl

/-- On a known session with no collected threat, `checkSecurityStatus`
returns the secure status, leaves the store alone and starts no breach
handling. -/
theorem checkSecurityStatus_known_secure (config : Config) (sessions : Store)
    (sessionId : String) (v : VpnStatus) (n : NetworkStatus)
    (a : AnomalyStatus) (f : FingerprintStatus) (notifyOk : Bool)
    (now : String) (h : hasSession sessions sessionId = true)
    (hs : collectThreats v n a f = []) :
    checkSecurityStatus config sessions sessionId v n a f notifyOk now =
      { result := .status { secure := true, timestamp := now,
                            sessionId := sessionId, threats := [] },
        sessions := sessions, breach := none } := by
  simp [checkSecurityStatus, h, hs]

/-- On a known session with at least one collected threat,
`checkSecurityStatus` returns the insecure status and runs
`handleSecurityBreach`. -/
theorem checkSecurityStatus_known_insecure (config : Config) (sessions : Store)
    (sessionId : String) (v : VpnStatus) (n : NetworkStatus)
    (a : AnomalyStatus) (f : FingerprintStatus) (notifyOk : Bool)
    (now : String) (h : hasSession sessions sessionId = true)
    (hs : collectThreats v n a f ≠ []) :
    checkSecurityStatus config sessions sessionId v n a f notifyOk now =
      { result := .status { secure := false, timestamp := now,
                            sessionId := sessionId,
                            threats := collectThreats v n a f },
        sessions := (handleSecurityBreach config sessions sessionId
          (collectThreats v n a f) notifyOk now).sessions,
        breach := some (handleSecurityBreach config sessions sessionId
          (collectThreats v n a f) notifyOk now) } := by
  have hb : ((collectThreats v n a f).length == 0) = false := by
    simp [List.length_eq_zero, hs]
  simp [checkSecurityStatus, h, hb]

/-- On an unknown session, the value returned by `checkSecurityStatus` is
the degenerate error object. -/
theorem checkSecurityStatus_result_unknown (config : Config) (sessions : Store)
    (sessionId : String) (v : VpnStatus) (n : NetworkStatus)
    (a : AnomalyStatus) (f : FingerprintStatus) (notifyOk : Bool)
    (now : String) (h : hasSession sessions sessionId = false) :
    (checkSecurityStatus config sessions sessionId v n a f notifyOk now).result =
      .invalidSession ("Invalid session") false now := by
  simp [checkSecurityStatus, h]

/-! ## Claims -/

/-- C1 counterexample: a session whose status is the terminal `'closed'`
is switched to the other terminal state `'terminated'` by a later
`terminateStream` call — terminal states are not absorbing across the two
operations, contradicting the claim. -/
theorem C1_counterexample :
    (lookupSession [("s1", closedSession)] ("s1")).map Session.status =
      some .closed ∧
    (lookupSession (terminateStream [("s1", closedSession)] ("s1") ("r") ("t2")).1
        ("s1")).map Session.status = some .terminated := by
  constructor <;> decide

/-- C1 (amended): for a session already in a terminal state (`terminated`
or `closed`), a later `terminateStream` unconditionally sets its status to
`terminated` and a later `cleanup` unconditionally sets it to `closed`:
the same operation re-stamps the same terminal status idempotently, but
each operation can also switch the session from the other terminal state
to its own. -/
theorem C1_amended (sessions : Store) (sessionId reason now : String)
    (mods : List ModuleCap) (old : Session)
    (h : lookupSession sessions sessionId = some old)
    (hterm : old.status = .terminated ∨ old.status = .closed) :
    (lookupSession (terminateStream sessions sessionId reason now).1
        sessionId).map Session.status = some .terminated ∧
    (lookupSession (cleanup sessions sessionId mods now).sessions
        sessionId).map Session.status = some .closed := by
  constructor
  · simp [terminateStream, h, lookupSession_setEntry_self]
  · simp [cleanup, h, lookupSession_setEntry_self]

/-- Witness for C1 (amended) at a concrete terminated session. -/
theorem C1_amended_witness :
    lookupSession [("s1", terminatedSession)] ("s1") = some terminatedSession ∧
    (terminatedSession.status = .terminated ∨
      terminatedSession.status = .closed) ∧
    ((lookupSession (terminateStream [("s1", terminatedSession)] ("s1") ("r")
        ("t2")).1 ("s1")).map Session.status = some .terminated ∧
     (lookupSession (cleanup [("s1", terminatedSession)] ("s1") [] ("t2")).sessions
        ("s1")).map Session.status = some .closed) :=
  ⟨by decide, Or.inl rfl,
   C1_amended [("s1", terminatedSession)] ("s1") ("r") ("t2") [] terminatedSession
     (by decide) (Or.inl rfl)⟩

/-- C7: `checkSecurityStatus` on an unknown session id returns exactly the
degenerate `{error: 'Invalid session', secure: false, timestamp}` value (a
shape with no `threats` field), leaves the store unchanged, and starts no
breach handling. -/
theorem C7_unknown_session (config : Config) (sessions : Store)
    (sessionId : String) (v : VpnStatus) (n : NetworkStatus)
    (a : AnomalyStatus) (f : FingerprintStatus) (notifyOk : Bool)
    (now : String) (h : hasSession sessions sessionId = false) :
    checkSecurityStatus config sessions sessionId v n a f notifyOk now =
      { result := .invalidSession ("Invalid session") false now,
        sessions := sessions, breach := none } := by
  simp [checkSecurityStatus, h]

/-- Witness for C7 on the empty store. -/
theorem C7_unknown_session_witness :
    hasSession [] ("s1") = false ∧
    checkSecurityStatus demoConfig [] ("s1") cleanVpn cleanNetwork cleanAnomaly
        cleanFingerprint true ("t") =
      { result := .invalidSession ("Invalid session") false ("t"),
        sessions := [], breach := none } :=
  ⟨by decide,
   C7_unknown_session demoConfig [] ("s1") cleanVpn cleanNetwork cleanAnomaly
     cleanFingerprint true ("t") (by decide)⟩

/-- C10: `terminateStream` on an unknown session id leaves the store
unchanged (no record is created) and still returns the full
`{action: 'terminate', reason, sessionId, timestamp}` result, the same
shape a successful termination returns. -/
theorem C10_terminate_unknown (sessions : Store) (sessionId reason now : String)
    (h : hasSession sessions sessionId = false) :
    terminateStream sessions sessionId reason now =
      (sessions, .terminate reason sessionId now) := by
  have h2 : lookupSession sessions sessionId = none := by
    cases hl : lookupSession sessions sessionId with
    | none => rfl
    | some s => simp [hasSession, hl] at h
  simp [terminateStream, h2]

/-- Witness for C10 on the empty store. -/
theorem C10_terminate_unknown_witness :
    hasSession [] ("s1") = false ∧
    terminateStream [] ("s1") ("r") ("t") = ([], .terminate ("r") ("s1") ("t")) :=
  ⟨by decide, C10_terminate_unknown [] ("s1") ("r") ("t") (by decide)⟩

/-- C2: on a known session, the returned status's `threats` list has a vpn
entry iff `detected == true`, a network entry iff `suspicious == true`, an
anomaly entry iff `anomalies` is non-empty, and a fingerprint entry iff
`valid == false`, each rule independent of the others, and the entries
appear in the fixed order vpn, network, anomaly, fingerprint. -/
theorem C2_threat_rules (config : Config) (sessions : Store)
    (sessionId : String) (v : VpnStatus) (n : NetworkStatus)
    (a : AnomalyStatus) (f : FingerprintStatus) (notifyOk : Bool)
    (now : String) (h : hasSession sessions sessionId = true) :
    ∃ ss : SecurityStatus,
      (checkSecurityStatus config sessions sessionId v n a f notifyOk
          now).result = .status ss ∧
      ss.threats =
        (if v.detected = true then [⟨.vpn, .vpn v⟩] else []) ++
        (if n.suspicious = true then [⟨.network, .network n⟩] else []) ++
        (if a.anomalies ≠ [] then [⟨.anomaly, .anomaly a⟩] else []) ++
        (if f.valid = false then [⟨.fingerprint, .fingerprint f⟩] else []) :=
  ⟨_, checkSecurityStatus_result_known config sessions sessionId v n a f
      notifyOk now h,
   collectThreats_eq_spec v n a f⟩

/-- Witness for C2 at a concrete store and detector results. -/
theorem C2_threat_rules_witness :
    hasSession [("s1", activeSession)] ("s1") = true ∧
    ∃ ss : SecurityStatus,
      (checkSecurityStatus demoConfig [("s1", activeSession)] ("s1") cleanVpn
          cleanNetwork cleanAnomaly cleanFingerprint true ("t")).result =
        .status ss ∧
      ss.threats =
        (if cleanVpn.detected = true then [⟨.vpn, .vpn cleanVpn⟩] else []) ++
        (if cleanNetwork.suspicious = true then
          [⟨.network, .network cleanNetwork⟩] else []) ++
        (if cleanAnomaly.anomalies ≠ [] then
          [⟨.anomaly, .anomaly cleanAnomaly⟩] else []) ++
        (if cleanFingerprint.valid = false then
          [⟨.fingerprint, .fingerprint cleanFingerprint⟩] else []) :=
  ⟨by decide,
   C2_threat_rules demoConfig [("s1", activeSession)] ("s1") cleanVpn
     cleanNetwork cleanAnomaly cleanFingerprint true ("t") (by decide)⟩

/-- C3: on a known session, the returned `SecurityStatus` has
`secure = true` iff its `threats` list is empty — the two fields are built
from the same `threats` value on every path. -/
theorem C3_secure_iff_no_threats (config : Config) (sessions : Store)
    (sessionId : String) (v : VpnStatus) (n : NetworkStatus)
    (a : AnomalyStatus) (f : FingerprintStatus) (notifyOk : Bool)
    (now : String) (h : hasSession sessions sessionId = true) :
    ∃ ss : SecurityStatus,
      (checkSecurityStatus config sessions sessionId v n a f notifyOk
          now).result = .status ss ∧
      (ss.secure = true ↔ ss.threats = []) := by
  refine ⟨_, checkSecurityStatus_result_known config sessions sessionId v n a
    f notifyOk now h, ?_⟩
  simp [List.length_eq_zero]

/-- Witness for C3 at a concrete store and detector results. -/
theorem C3_secure_iff_no_threats_witness :
    hasSession [("s1", activeSession)] ("s1") = true ∧
    ∃ ss : SecurityStatus,
      (checkSecurityStatus demoConfig [("s1", activeSession)] ("s1") cleanVpn
          cleanNetwork cleanAnomaly cleanFingerprint true ("t")).result =
        .status ss ∧
      (ss.secure = true ↔ ss.threats = []) :=
  ⟨by decide,
   C3_secure_iff_no_threats demoConfig [("s1", activeSession)] ("s1") cleanVpn
     cleanNetwork cleanAnomaly cleanFingerprint true ("t") (by decide)⟩

/-- C4: on a known session, `handleSecurityBreach` is run iff the returned
status has `secure = false`; when it is secure, no breach run exists at
all (hence no breach log, notification or strategy action) and the store
is untouched. -/
theorem C4_breach_iff_insecure (config : Config) (sessions : Store)
    (sessionId : String) (v : VpnStatus) (n : NetworkStatus)
    (a : AnomalyStatus) (f : FingerprintStatus) (notifyOk : Bool)
    (now : String) (h : hasSession sessions sessionId = true) :
    ∃ ss : SecurityStatus,
      (checkSecurityStatus config sessions sessionId v n a f notifyOk
          now).result = .status ss ∧
      ((checkSecurityStatus config sessions sessionId v n a f notifyOk
          now).breach.isSome = true ↔ ss.secure = false) ∧
      (ss.secure = true →
        (checkSecurityStatus config sessions sessionId v n a f notifyOk
            now).sessions = sessions ∧
        (checkSecurityStatus config sessions sessionId v n a f notifyOk
            now).breach = none) := by
  by_cases hs : collectThreats v n a f = []
  · rw [checkSecurityStatus_known_secure config sessions sessionId v n a f
      notifyOk now h hs]
    exact ⟨_, rfl, by simp, fun _ => ⟨rfl, rfl⟩⟩
  · rw [checkSecurityStatus_known_insecure config sessions sessionId v n a f
      notifyOk now h hs]
    refine ⟨_, rfl, by simp, ?_⟩
    intro hsec
    simp at hsec

/-- Witness for C4 at a concrete store and detector results. -/
theorem C4_breach_iff_insecure_witness :
    hasSession [("s1", activeSession)] ("s1") = true ∧
    ∃ ss : SecurityStatus,
      (checkSecurityStatus demoConfig [("s1", activeSession)] ("s1") cleanVpn
          cleanNetwork cleanAnomaly cleanFingerprint true ("t")).result =
        .status ss ∧
      ((checkSecurityStatus demoConfig [("s1", activeSession)] ("s1") cleanVpn
          cleanNetwork cleanAnomaly cleanFingerprint true ("t")).breach.isSome =
        true ↔ ss.secure = false) ∧
      (ss.secure = true →
        (checkSecurityStatus demoConfig [("s1", activeSession)] ("s1") cleanVpn
            cleanNetwork cleanAnomaly cleanFingerprint true ("t")).sessions =
          [("s1", activeSession)] ∧
        (checkSecurityStatus demoConfig [("s1", activeSession)] ("s1") cleanVpn
            cleanNetwork cleanAnomaly cleanFingerprint true ("t")).breach =
          none) :=
  ⟨by decide,
   C4_breach_iff_insecure demoConfig [("s1", activeSession)] ("s1") cleanVpn
     cleanNetwork cleanAnomaly cleanFingerprint true ("t") (by decide)⟩

/-- C5: for a breach-handling run that reaches the strategy dispatch (no
configured notification, or the notification delivered), `'degraded'` and
`'warning'` leave the store — hence the session record and its status —
exactly as it was, while `'immediate'` and any unrecognized strategy
update exactly the one session entry to `status = terminated`,
`terminatedReason = 'Security violation detected'`, `terminatedAt = now`,
all its other fields kept. -/
theorem C5_strategy_effects (config : Config) (sessions : Store)
    (sessionId : String) (threats : List Threat) (notifyOk : Bool)
    (now : String) (old : Session)
    (h : lookupSession sessions sessionId = some old)
    (hn : config.notificationEndpoint = none ∨ notifyOk = true) :
    ((config.blockingStrategy = "degraded" ∨
        config.blockingStrategy = "warning") →
      (handleSecurityBreach config sessions sessionId threats notifyOk
          now).sessions = sessions) ∧
    ((config.blockingStrategy ≠ "degraded" ∧
        config.blockingStrategy ≠ "warning") →
      (handleSecurityBreach config sessions sessionId threats notifyOk
          now).sessions =
        setEntry sessions sessionId
          { old with
              status := .terminated
              terminatedReason := some ("Security violation detected")
              terminatedAt := some now }) := by
  have hno : (config.notificationEndpoint.isSome && !notifyOk) = false := by
    rcases hn with hn | hn <;> simp [hn]
  constructor
  · rintro (hd | hw)
    · simp [handleSecurityBreach, hno, hd]
    · simp [handleSecurityBreach, hno, hw]
  · rintro ⟨hd, hw⟩
    by_cases hi : config.blockingStrategy = "immediate" <;>
      simp [handleSecurityBreach, hno, hi, hd, hw, terminateStream, h]

/-- Witness for C5 under the default `'immediate'` strategy. -/
theorem C5_strategy_effects_witness :
    lookupSession [("s1", activeSession)] ("s1") = some activeSession ∧
    (demoConfig.notificationEndpoint = none ∨ (true : Bool) = true) ∧
    (((demoConfig.blockingStrategy = "degraded" ∨
        demoConfig.blockingStrategy = "warning") →
      (handleSecurityBreach demoConfig [("s1", activeSession)] ("s1") [] true
          ("t")).sessions = [("s1", activeSession)]) ∧
     ((demoConfig.blockingStrategy ≠ "degraded" ∧
        demoConfig.blockingStrategy ≠ "warning") →
      (handleSecurityBreach demoConfig [("s1", activeSession)] ("s1") [] true
          ("t")).sessions =
        setEntry [("s1", activeSession)] ("s1")
          { activeSession with
              status := .terminated
              terminatedReason := some ("Security violation detected")
              terminatedAt := some ("t") })) :=
  ⟨by decide, Or.inl rfl,
   C5_strategy_effects demoConfig [("s1", activeSession)] ("s1") [] true ("t")
     activeSession (by decide) (Or.inl rfl)⟩

/-- C6: `initialize` commits nothing when any of the four module
initializations fails — the call rejects and the store is exactly the old
store — and inserts the `{info, startTime, status: 'active'}` record and
returns the result object only when all four succeed. -/
theorem C6_init_atomic (sessions : Store) (sessionId sessionInfo : String)
    (vOk nOk aOk fOk : Bool) (securityToken fingerprintData now : String) :
    ((vOk = false ∨ nOk = false ∨ aOk = false ∨ fOk = false) →
      (initializeSession sessions sessionId sessionInfo vOk nOk aOk fOk
          securityToken fingerprintData now).1 = sessions ∧
      ∃ e, (initializeSession sessions sessionId sessionInfo vOk nOk aOk fOk
          securityToken fingerprintData now).2 = .error e) ∧
    (vOk = true ∧ nOk = true ∧ aOk = true ∧ fOk = true →
      (initializeSession sessions sessionId sessionInfo vOk nOk aOk fOk
          securityToken fingerprintData now).2 =
        .ok ⟨sessionId, securityToken, fingerprintData⟩ ∧
      lookupSession (initializeSession sessions sessionId sessionInfo vOk nOk
          aOk fOk securityToken fingerprintData now).1 sessionId =
        some { info := sessionInfo, startTime := now, status := .active,
               terminatedReason := none, terminatedAt := none,
               closedAt := none }) := by
  constructor
  · intro hfail
    have hb : (vOk && nOk && aOk && fOk) = false := by
      rcases hfail with hx | hx | hx | hx <;> simp [hx]
    simp [initializeSession, hb]
  · rintro ⟨h1, h2, h3, h4⟩
    simp [initializeSession, h1, h2, h3, h4, lookupSession_setEntry_self]

/-- Witness for C6 with a failing anomaly-detector initialization. -/
theorem C6_init_atomic_witness :
    (((true : Bool) = false ∨ (true : Bool) = false ∨
        (false : Bool) = false ∨ (true : Bool) = false) →
      (initializeSession [] ("s1") ("i") true true false true ("tok") ("fp")
          ("t")).1 = [] ∧
      ∃ e, (initializeSession [] ("s1") ("i") true true false true ("tok") ("fp")
          ("t")).2 = .error e) ∧
    (true = true ∧ true = true ∧ (false : Bool) = true ∧ true = true →
      (initializeSession [] ("s1") ("i") true true false true ("tok") ("fp")
          ("t")).2 = .ok ⟨"s1", "tok", "fp"⟩ ∧
      lookupSession (initializeSession [] ("s1") ("i") true true false true
          ("tok") "fp" "t").1 ("s1") =
        some { info := "i", startTime := "t", status := .active,
               terminatedReason := none, terminatedAt := none,
               closedAt := none }) :=
  C6_init_atomic [] ("s1") ("i") true true false true ("tok") ("fp") ("t")

/-- C8: `cleanup` on an unknown session returns `false` and changes
nothing; on any known session (already closed or not) it returns `true`,
updates exactly that session's entry to `status = closed` with
`closedAt = now` (all other fields kept, all other sessions untouched),
and invokes the cleanup capability on exactly the modules that provide
one. -/
theorem C8_cleanup_behaviour (sessions : Store) (sessionId : String)
    (mods : List ModuleCap) (now : String) :
    (hasSession sessions sessionId = false →
      cleanup sessions sessionId mods now =
        { returned := false, sessions := sessions, cleaned := [] }) ∧
    (∀ old, lookupSession sessions sessionId = some old →
      (cleanup sessions sessionId mods now).returned = true ∧
      lookupSession (cleanup sessions sessionId mods now).sessions
          sessionId =
        some { old with status := .closed, closedAt := some now } ∧
      (∀ k, k ≠ sessionId →
        lookupSession (cleanup sessions sessionId mods now).sessions k =
          lookupSession sessions k) ∧
      (cleanup sessions sessionId mods now).cleaned =
        (mods.filter (fun m => m.hasCleanup)).map (fun m => m.name)) := by
  constructor
  · intro h
    have h2 : lookupSession sessions sessionId = none := by
      cases hl : lookupSession sessions sessionId with
      | none => rfl
      | some s => simp [hasSession, hl] at h
    simp [cleanup, h2]
  · intro old hold
    refine ⟨by simp [cleanup, hold],
      by simp [cleanup, hold, lookupSession_setEntry_self], ?_,
      by simp [cleanup, hold]⟩
    intro k hk
    simp [cleanup, hold, lookupSession_setEntry_ne _ _ _ _ hk]

/-- Witness for C8 on a known already-closed session and a mixed module
list. -/
theorem C8_cleanup_behaviour_witness :
    lookupSession [("s1", closedSession)] ("s1") = some closedSession ∧
    ((cleanup [("s1", closedSession)] ("s1") demoMods ("t2")).returned = true ∧
     lookupSession (cleanup [("s1", closedSession)] ("s1") demoMods
         ("t2")).sessions ("s1") =
       some { closedSession with status := .closed, closedAt := some ("t2") } ∧
     (∀ k, k ≠ "s1" →
       lookupSession (cleanup [("s1", closedSession)] ("s1") demoMods
           ("t2")).sessions k = lookupSession [("s1", closedSession)] k) ∧
     (cleanup [("s1", closedSession)] ("s1") demoMods ("t2")).cleaned =
       (demoMods.filter (fun m => m.hasCleanup)).map (fun m => m.name)) :=
  ⟨by decide,
   (C8_cleanup_behaviour [("s1", closedSession)] ("s1") demoMods ("t2")).2
     closedSession (by decide)⟩

/-- C9: when a notification endpoint is configured and the awaited
delivery rejects, the breach run stops before the strategy dispatch: no
action is taken, the store — and so the session's status — is unchanged
even under `'immediate'`, and the value `checkSecurityStatus` returns is
the same as if the delivery had succeeded. -/
theorem C9_notify_failure (config : Config) (sessions : Store)
    (sessionId : String) (threats : List Threat) (now ep : String)
    (hep : config.notificationEndpoint = some ep) :
    (handleSecurityBreach config sessions sessionId threats false
        now).completed = false ∧
    (handleSecurityBreach config sessions sessionId threats false
        now).action = none ∧
    (handleSecurityBreach config sessions sessionId threats false
        now).sessions = sessions ∧
    (∀ v n a f,
      (checkSecurityStatus config sessions sessionId v n a f false
          now).result =
        (checkSecurityStatus config sessions sessionId v n a f true
            now).result) := by
  have hi : config.notificationEndpoint.isSome = true := by simp [hep]
  refine ⟨by simp [handleSecurityBreach, hi], by simp [handleSecurityBreach, hi],
    by simp [handleSecurityBreach, hi], ?_⟩
  intro v n a f
  by_cases h : hasSession sessions sessionId
  · rw [checkSecurityStatus_result_known config sessions sessionId v n a f
      false now h,
      checkSecurityStatus_result_known config sessions sessionId v n a f
      true now h]
  · have h2 : hasSession sessions sessionId = false := by simpa using h
    rw [checkSecurityStatus_result_unknown config sessions sessionId v n a f
      false now h2,
      checkSecurityStatus_result_unknown config sessions sessionId v n a f
      true now h2]

/-- Witness for C9 with a configured endpoint and the default
`'immediate'` strategy. -/
theorem C9_notify_failure_witness :
    demoConfigN.notificationEndpoint = some ("e") ∧
    ((handleSecurityBreach demoConfigN [("s1", activeSession)] ("s1") [] false
        ("t")).completed = false ∧
     (handleSecurityBreach demoConfigN [("s1", activeSession)] ("s1") [] false
        ("t")).action = none ∧
     (handleSecurityBreach demoConfigN [("s1", activeSession)] ("s1") [] false
        ("t")).sessions = [("s1", activeSession)] ∧
     (∀ v n a f,
       (checkSecurityStatus demoConfigN [("s1", activeSession)] ("s1") v n a f
           false ("t")).result =
         (checkSecurityStatus demoConfigN [("s1", activeSession)] ("s1") v n a
             f true ("t")).result)) :=
  ⟨rfl,
   C9_notify_failure demoConfigN [("s1", activeSession)] ("s1") [] ("t") ("e")
     rfl⟩

end ContentProtection
